import Mathlib

/-!
Shallow embedding of the health-topic classification and response-validation
pipeline of `src/voice-assistant/src/health_assistant.py` (class
`HealthAssistant`), plus the caller-level repair step of
`src/voice-assistant/src/agent.py` (`handle_text_message`).

Modelling conventions:
* The three configuration files (`health_categories.json`,
  `prompt_templates.json`, `disclaimer_templates.json`) are not in the
  repository; they are modelled as parameters with exactly the structure the
  code reads from them.
* The sentence-transformer embedding plus cosine similarity (lines 69-83)
  is abstracted as a similarity function `sim : String → String → ℚ`
  giving, for a query text and a category name, the cosine similarity of the
  query embedding with that category representative vector.  Mathematical
  cosine similarity lies in [-1, 1] and the configured thresholds are
  positive, so the pydantic range guard on `TopicScore.confidence`
  (`ge=0.0, le=1.0`) can never fire on a matched score and is not modelled.
* For the error-handling claims the whole embedding/similarity computation
  is a fallible parameter `embedE : String → Except String (String → ℚ)`:
  an `Except.error` stands for any exception raised inside
  `classify_health_topic` (model load, encode, cosine).
* Python dictionaries keyed by category name become association lists; the
  code only iterates them in insertion order and looks keys up, which
  `List.lookup`, `List.filterMap` and `List.find?` reproduce.
* The `cachetools.TTLCache` (ttl = 24*60*60 seconds) becomes an explicit
  list of entries tagged with their insertion time; an entry is live at
  time `now` exactly when `now < storedAt + ttl`, matching `cachetools`
  lazy expiration.  The `maxsize=1000` bound is irrelevant to the claims
  (they involve a single key) and is not modelled.
* `process_query` additionally returns a `ProcessTrace` recording which
  pipeline stages ran, so that claims of the form "stage X is not invoked"
  are statable.  The returned response and cache state are translated
  line by line from the source.
-/

set_option maxRecDepth 8192

namespace HealthAssistant

/-- One category of `health_categories.json`, as read by the code:
`keywords`, `threshold`, `requires_disclaimer`, `professional_referral`. -/
structure CategoryConfig where
  keywords : List String
  threshold : ℚ
  requires_disclaimer : Bool
  professional_referral : List String
deriving DecidableEq

/-- `TopicScore` pydantic model of `health_assistant.py` (lines 25-29). -/
structure TopicScore where
  confidence : ℚ
  requires_disclaimer : Bool
  referrals : List String
deriving DecidableEq

/-- `disclaimer_templates.json` as read by the code:
`general.educational` and `category_specific[topic].general`. -/
structure DisclaimerTemplates where
  educational : String
  category_specific : List (String × String)
deriving DecidableEq

/-- `prompt_templates.json` as read by the code: `base_prompt`,
`category_prompts[topic]` and `safety_guidelines.medical_emergency`. -/
structure PromptTemplates where
  base_prompt : String
  category_prompts : List (String × String)
  medical_emergency : String
deriving DecidableEq

/-- `classify_health_topic` (lines 64-93): for each category, if the cosine
similarity of the query with the category representative vector strictly
exceeds the category threshold, emit a `TopicScore` carrying that
similarity and the category flags. -/
def classify_health_topic (cats : List (String × CategoryConfig))
    (sim : String → String → ℚ) (text : String) : List (String × TopicScore) :=
  cats.filterMap (fun c =>
    if sim text c.1 > c.2.threshold then
      some (c.1,
        { confidence := sim text c.1,
          requires_disclaimer := c.2.requires_disclaimer,
          referrals := c.2.professional_referral })
    else none)

/-- Fallible variant of classification: any exception raised while
computing the query embedding or the similarities (lines 69-83) surfaces
as `Except.error`; otherwise the result is exactly
`classify_health_topic`. -/
def classifyE (cats : List (String × CategoryConfig))
    (embedE : String → Except String (String → ℚ)) (text : String) :
    Except String (List (String × TopicScore)) :=
  match embedE text with
  | .error e => .error e
  | .ok sims => .ok (classify_health_topic cats (fun _ c => sims c) text)

/-- The never-failing embedding built from a total similarity function. -/
def embedOk (sim : String → String → ℚ) : String → Except String (String → ℚ) :=
  fun t => .ok (fun c => sim t c)

/-- `_get_relevant_disclaimers` (lines 95-105): the general educational
disclaimer first, then the category-specific disclaimer of every matched
topic that has one. -/
def get_relevant_disclaimers (d : DisclaimerTemplates)
    (topics : List (String × TopicScore)) : List String :=
  d.educational :: topics.filterMap (fun t => d.category_specific.lookup t.1)

/-- Python `sep.join(parts)`. -/
def joinStr (sep : String) : List String → String
  | [] => ""
  | [a] => a
  | a :: b :: rest => a ++ sep ++ joinStr sep (b :: rest)

/-- The list of prompt fragments assembled by `get_dynamic_prompt`
(lines 107-124), in source order: base prompt, category prompts of the
matched topics, disclaimers, then the medical-emergency safety guideline
when some matched topic requires a disclaimer. -/
def get_dynamic_prompt_parts (p : PromptTemplates) (d : DisclaimerTemplates)
    (topics : List (String × TopicScore)) : List String :=
  [p.base_prompt]
    ++ topics.filterMap (fun t => p.category_prompts.lookup t.1)
    ++ get_relevant_disclaimers d topics
    ++ (if topics.any (fun t => t.2.requires_disclaimer) then [p.medical_emergency] else [])

/-- `get_dynamic_prompt` (lines 107-124): the fragments joined by a blank
line, as in the final `"\n\n".join(prompt_parts)`. -/
def get_dynamic_prompt (p : PromptTemplates) (d : DisclaimerTemplates)
    (topics : List (String × TopicScore)) : String :=
  joinStr ("\n\n") (get_dynamic_prompt_parts p d topics)

/-- Substring test on character lists (Python `pat in s`). -/
def charsContain : List Char → List Char → Bool
  | [], pat => pat.isEmpty
  | c :: t, pat => pat.isPrefixOf (c :: t) || charsContain t pat

/-- Python substring test `pat in s` on strings. -/
def strContains (s pat : String) : Bool :=
  charsContain s.data pat.data

/-- Python `s.lower()`: character-wise lowercasing (the checks of the
validator only involve ASCII text). -/
def strToLower (s : String) : String :=
  String.mk (s.data.map Char.toLower)

/-- Helper for Python `s.split()`: accumulate maximal runs of
non-whitespace characters, dropping empty pieces. -/
def wordsAux : List Char → List Char → List (List Char)
  | [], acc => if acc.isEmpty then [] else [acc.reverse]
  | c :: rest, acc =>
    if c.isWhitespace then
      (if acc.isEmpty then wordsAux rest [] else acc.reverse :: wordsAux rest [])
    else wordsAux rest (c :: acc)

/-- Python `s.split()`: split on whitespace runs, no empty pieces. -/
def pyWords (s : String) : List String :=
  (wordsAux s.data []).map String.mk

/-- Helper for Python `s.split(sep)` with a newline separator. -/
def linesAux : List Char → List Char → List (List Char)
  | [], acc => [acc.reverse]
  | c :: rest, acc =>
    if c == '\n' then acc.reverse :: linesAux rest [] else linesAux rest (c :: acc)

/-- Python `s.split(chr(10))`: pieces between newline characters, empty
pieces kept, always at least one piece. -/
def pyLines (s : String) : List String :=
  (linesAux s.data []).map String.mk

/-- The issue list accumulated by `validate_response` (lines 126-158), in
source order: disclaimer checks (only when some matched topic requires a
disclaimer), referral check, word-count check, line-structure check. -/
def validate_issues (response : String) (topics : List (String × TopicScore)) :
    List String :=
  (if topics.any (fun t => t.2.requires_disclaimer) then
    (if !strContains (strToLower response) ("consult") then
      ["Missing healthcare consultation recommendation"] else [])
    ++ (if !strContains (strToLower response) ("not medical advice") then
      ["Missing medical advice disclaimer"] else [])
  else [])
  ++ (if !((topics.map (fun t => t.2.referrals)).flatten).isEmpty
        && !((topics.map (fun t => t.2.referrals)).flatten).any
              (fun ref => strContains (strToLower response) (strToLower ref)) then
      ["Missing professional referral suggestion"] else [])
  ++ (if (pyWords response).length < 20 then
      ["Response too short - may lack sufficient detail"] else [])
  ++ (if (pyLines response).length < 2 then
      ["Response lacks proper formatting/structure"] else [])

/-- `validate_response` (lines 126-158): returns `(valid, feedback)` with
`valid = (len(issues) == 0)` and the issues joined by newlines. -/
def validate_response (response : String) (topics : List (String × TopicScore)) :
    Bool × String :=
  let issues := validate_issues response topics
  (issues.length == 0, if issues.isEmpty then "" else joinStr ("\n") issues)

/-- The redirect message returned by `process_query` when no health topic
is detected (lines 178-183). -/
def REDIRECT_MESSAGE : String :=
  "I\x27m a specialized health and wellness assistant. I notice your question isn\x27t directly related to health or wellness. Would you like to discuss how this topic might relate to your health, or would you prefer to ask a different health-related question?"

/-- The generic apology returned by the `except` handler of
`process_query` (lines 203-208). -/
def ERROR_MESSAGE : String :=
  "I apologize, but I encountered an error processing your request. Please try again or rephrase your question."

/-- The fixed placeholder standing in for the not-yet-implemented
generator call (line 190). -/
def PLACEHOLDER_RESPONSE : String :=
  "This is a placeholder response. Implementation pending."

/-- TTL of the response cache: `TTLCache(maxsize=1000, ttl=24*60*60)`. -/
def CACHE_TTL : Nat := 24 * 60 * 60

/-- One entry of the response cache: key `hash(text)`, insertion time,
stored response. -/
structure CacheEntry where
  key : Int
  storedAt : Nat
  value : String
deriving DecidableEq

/-- `TTLCache` lookup at time `now`: an entry answers only while
`now < storedAt + ttl`; expired entries are treated as absent. -/
def cache_get (cache : List CacheEntry) (now : Nat) (key : Int) : Option String :=
  match cache.find? (fun e => e.key == key && decide (now < e.storedAt + CACHE_TTL)) with
  | some e => some e.value
  | none => none

/-- `TTLCache` store at time `now`: replaces any previous entry under the
same key. -/
def cache_put (cache : List CacheEntry) (now : Nat) (key : Int) (value : String) :
    List CacheEntry :=
  ⟨key, now, value⟩ :: cache.filter (fun e => e.key != key)

/-- Which pipeline stages a `process_query` call executed.  The source
contains no generator call at all (line 188 is a TODO), so there is no
generator field to record. -/
structure ProcessTrace where
  cacheHit : Bool
  ranClassify : Bool
  ranCompose : Bool
  ranValidate : Bool
  wroteCache : Bool
deriving DecidableEq

/-- `process_query` (lines 160-208), translated line by line: cache probe
under `hash(text)`; classification (whose failure is caught by the
surrounding `try` and answered with the apology message); redirect on an
empty topic set; otherwise prompt composition, the placeholder response,
validation (whose verdict is only logged), and an unconditional cache
store of the response.  Returns the response text, the new cache state
and the stage trace. -/
def process_query (cats : List (String × CategoryConfig)) (p : PromptTemplates)
    (d : DisclaimerTemplates) (embedE : String → Except String (String → ℚ))
    (hashF : String → Int) (cache : List CacheEntry) (now : Nat) (text : String) :
    String × List CacheEntry × ProcessTrace :=
  let key := hashF text
  match cache_get cache now key with
  | some cached => (cached, cache, ⟨true, false, false, false, false⟩)
  | none =>
    match classifyE cats embedE text with
    | .error _ => (ERROR_MESSAGE, cache, ⟨false, true, false, false, false⟩)
    | .ok topics =>
      if topics.isEmpty then
        (REDIRECT_MESSAGE, cache, ⟨false, true, false, false, false⟩)
      else
        let _prompt := get_dynamic_prompt p d topics
        let response := PLACEHOLDER_RESPONSE
        let _validation := validate_response response topics
        (response, cache_put cache now key response, ⟨false, true, true, true, true⟩)

/-- The health branch of `handle_text_message` in `agent.py`
(lines 112-124): the generated response is validated and, exactly when
validation fails, the caller appends the general educational disclaimer
behind an `IMPORTANT:` marker. -/
def handle_health_response (d : DisclaimerTemplates) (generated : String)
    (topics : List (String × TopicScore)) : String :=
  let validation := validate_response generated topics
  if validation.1 then generated
  else generated ++ "\n\nIMPORTANT: " ++ d.educational

/-- Concrete category catalog in the shape of `health_categories.json`
(the nutrition example of the specification: threshold 0.3, disclaimer
required, referral to a registered dietitian). -/
def catsEx : List (String × CategoryConfig) :=
  [("nutrition",
    { keywords := ["diet", "nutrition"],
      threshold := mkRat 3 10,
      requires_disclaimer := true,
      professional_referral := ["registered dietitian"] })]

/-- A similarity functional measuring 0.55 everywhere (above the
nutrition threshold). -/
def simEx : String → String → ℚ := fun _ _ => mkRat 55 100

/-- A similarity functional measuring 0.1 everywhere (below the
nutrition threshold). -/
def simLow : String → String → ℚ := fun _ _ => mkRat 1 10

/-- An embedding computation that raises on every query. -/
def embedFail : String → Except String (String → ℚ) := fun _ => .error ("model failure")

/-- Concrete prompt templates in the shape of `prompt_templates.json`. -/
def promptsEx : PromptTemplates :=
  { base_prompt := "You are a helpful health and wellness assistant.",
    category_prompts := [("nutrition", "Discuss nutrition with evidence-based guidance.")],
    medical_emergency := "In an emergency, contact local emergency services immediately." }

/-- Concrete disclaimer templates in the shape of
`disclaimer_templates.json`. -/
def disclaimersEx : DisclaimerTemplates :=
  { educational := "This information is for educational purposes only.",
    category_specific := [("nutrition", "Nutrition advice here is general guidance.")] }

/-- A concrete stand-in for Python `hash` on the example queries. -/
def hashEx : String → Int := fun _ => 7

/-- The nutrition query of the specification scenarios. -/
def queryEx : String := "What is a good diet for weight loss?"

end HealthAssistant

namespace HealthAssistant

/-- In an association list with no duplicate keys, a key determines its
value. -/
theorem nodup_key_eq {α β : Type} {l : List (α × β)}
    (hnd : (l.map Prod.fst).Nodup) {a : α} {b c : β}
    (hb : (a, b) ∈ l) (hc : (a, c) ∈ l) : b = c := by
  induction l with
  | nil => cases hb
  | cons hd tl ih =>
    simp only [List.map_cons, List.nodup_cons] at hnd
    obtain ⟨hni, hntl⟩ := hnd
    rcases List.mem_cons.mp hb with hb1 | hb2 <;>
      rcases List.mem_cons.mp hc with hc1 | hc2
    · rw [← hb1] at hc1
      exact (Prod.mk.injEq _ _ _ _ ▸ hc1.symm).2
    · apply absurd _ hni
      have hmm : (a, c).1 ∈ tl.map Prod.fst := List.mem_map_of_mem Prod.fst hc2
      rw [← hb1]
      exact hmm
    · apply absurd _ hni
      have hmm : (a, b).1 ∈ tl.map Prod.fst := List.mem_map_of_mem Prod.fst hb2
      rw [← hc1]
      exact hmm
    · exact ih hntl hb2 hc2

/-- The fallible classifier over a never-failing embedding computes the
total classifier. -/
theorem classifyE_embedOk (cats : List (String × CategoryConfig))
    (sim : String → String → ℚ) (text : String) :
    classifyE cats (embedOk sim) text =
      Except.ok (classify_health_topic cats sim text) := rfl

/-- A non-expired issue of the validator makes the verdict `false`. -/
theorem validate_response_false_of_issue {response : String}
    {topics : List (String × TopicScore)}
    (h : validate_issues response topics ≠ []) :
    (validate_response response topics).1 = false := by
  simp only [validate_response]
  rw [beq_eq_false_iff_ne]
  exact fun h0 => h (List.length_eq_zero.mp h0)

/-- The validator verdict is the emptiness of the issue list. -/
theorem validate_response_true_iff (response : String)
    (topics : List (String × TopicScore)) :
    (validate_response response topics).1 = true ↔
      validate_issues response topics = [] := by
  simp only [validate_response]
  rw [beq_iff_eq]
  exact List.length_eq_zero

/-- `process_query` on a live cache entry answers from the cache. -/
theorem process_query_hit (cats : List (String × CategoryConfig))
    (p : PromptTemplates) (d : DisclaimerTemplates)
    (embedE : String → Except String (String → ℚ)) (hashF : String → Int)
    (cache : List CacheEntry) (now : Nat) (text r : String)
    (h : cache_get cache now (hashF text) = some r) :
    process_query cats p d embedE hashF cache now text =
      (r, cache, ⟨true, false, false, false, false⟩) := by
  simp [process_query, h]

/-- `process_query` on a cache miss with a non-empty classification runs
the whole pipeline and stores the placeholder response. -/
theorem process_query_matched (cats : List (String × CategoryConfig))
    (p : PromptTemplates) (d : DisclaimerTemplates)
    (embedE : String → Except String (String → ℚ)) (hashF : String → Int)
    (cache : List CacheEntry) (now : Nat) (text : String)
    (topics : List (String × TopicScore))
    (hmiss : cache_get cache now (hashF text) = none)
    (hok : classifyE cats embedE text = Except.ok topics)
    (hne : topics ≠ []) :
    process_query cats p d embedE hashF cache now text =
      (PLACEHOLDER_RESPONSE,
        cache_put cache now (hashF text) PLACEHOLDER_RESPONSE,
        ⟨false, true, true, true, true⟩) := by
  have hbe : topics.isEmpty = false := by
    cases topics with
    | nil => exact absurd rfl hne
    | cons a l => rfl
  simp [process_query, hmiss, hok, hbe]

/-- A freshly stored cache entry is returned while it is live. -/
theorem cache_get_put_live (cache : List CacheEntry) (now : Nat) (k : Int)
    (v : String) (t : Nat) (h : t < now + CACHE_TTL) :
    cache_get (cache_put cache now k v) t k = some v := by
  simp [cache_get, cache_put, List.find?, h]

/-- A stored cache entry is treated as absent once expired. -/
theorem cache_get_put_expired (cache : List CacheEntry) (now : Nat) (k : Int)
    (v : String) (t : Nat) (h : ¬ t < now + CACHE_TTL) :
    cache_get (cache_put cache now k v) t k = none := by
  unfold cache_get cache_put
  have hfind : List.find?
      (fun e => e.key == k && decide (t < e.storedAt + CACHE_TTL))
      (⟨k, now, v⟩ :: cache.filter (fun e => e.key != k)) = none := by
    rw [List.find?_eq_none]
    intro e he
    rcases List.mem_cons.mp he with rfl | hmem
    · simp [h]
    · have hne : e.key ≠ k := by
        have := (List.mem_filter.mp hmem).2
        simpa [bne_iff_ne] using this
      simp [hne]
  rw [hfind]

/-- The join of a non-empty fragment list extends its first fragment. -/
theorem joinStr_cons (sep a : String) (l : List String) :
    ∃ t, joinStr sep (a :: l) = a ++ t := by
  cases l with
  | nil => exact ⟨"", (String.append_empty a).symm⟩
  | cons b r => exact ⟨sep ++ joinStr sep (b :: r), (String.append_assoc a sep _)⟩

end HealthAssistant

namespace HealthAssistant

/-- C1: the claim says a cache entry is written only when the stored
response passed validation.  The code contradicts its own comment
("Cache valid response"): on the concrete nutrition query the placeholder
response fails validation, yet `process_query` stores it in the cache. -/
theorem c1_invalid_response_is_cached :
    (process_query catsEx promptsEx disclaimersEx (embedOk simEx) hashEx [] 0 queryEx).2.1 =
      [⟨hashEx queryEx, 0, PLACEHOLDER_RESPONSE⟩] ∧
    (validate_response PLACEHOLDER_RESPONSE
        (classify_health_topic catsEx simEx queryEx)).1 = false := by
  exact ⟨by decide, by decide⟩

/-- C2 counterexample: on the concrete nutrition query validation of the
generated (placeholder) response fails, yet the text returned by
`process_query` is the bare placeholder, not the placeholder with the
educational disclaimer appended. -/
theorem c2_counterexample_no_annotation :
    (validate_response PLACEHOLDER_RESPONSE
        (classify_health_topic catsEx simEx queryEx)).1 = false ∧
    (process_query catsEx promptsEx disclaimersEx (embedOk simEx) hashEx [] 0 queryEx).1 =
      PLACEHOLDER_RESPONSE ∧
    PLACEHOLDER_RESPONSE ≠
      PLACEHOLDER_RESPONSE ++ "\n\nIMPORTANT: " ++ disclaimersEx.educational := by
  exact ⟨by decide, by decide, by decide⟩

/-- C2 (amended): the disclaimer is appended at the caller level, not in
`process_query`: in the health branch of `handle_text_message`, whenever
validation of the generated response fails, the final text is the
generated response with the general educational disclaimer appended
behind the `IMPORTANT:` marker; the validator itself only reports and
never changes the response. -/
theorem c2_caller_appends_disclaimer (d : DisclaimerTemplates)
    (generated : String) (topics : List (String × TopicScore))
    (h : (validate_response generated topics).1 = false) :
    handle_health_response d generated topics =
      generated ++ "\n\nIMPORTANT: " ++ d.educational := by
  simp [handle_health_response, h]

/-- C2 witness: the amended repair behaviour on a concrete failing
response. -/
theorem c2_caller_appends_disclaimer_witness :
    handle_health_response disclaimersEx ("Too short.") [] =
      "Too short." ++ "\n\nIMPORTANT: " ++ disclaimersEx.educational :=
  c2_caller_appends_disclaimer disclaimersEx ("Too short.") [] (by decide)

/-- C3 counterexample: when the embedding computation raises, the code
answers with the generic apology message, which differs from the
redirect message the claim requires. -/
theorem c3_counterexample_apology_not_redirect :
    (process_query catsEx promptsEx disclaimersEx embedFail hashEx [] 0 queryEx).1 =
      ERROR_MESSAGE ∧
    ERROR_MESSAGE ≠ REDIRECT_MESSAGE := by
  exact ⟨by decide, by decide⟩

/-- C3 (amended): an unexpected error during the embedding/similarity
computation is caught at the `process_query` boundary: the call returns
normally (no exception propagates), answers with the generic apology
message rather than the redirect message, and leaves the cache
unchanged. -/
theorem c3_classification_error_caught (cats : List (String × CategoryConfig))
    (p : PromptTemplates) (d : DisclaimerTemplates)
    (embedE : String → Except String (String → ℚ)) (hashF : String → Int)
    (cache : List CacheEntry) (now : Nat) (text e : String)
    (hmiss : cache_get cache now (hashF text) = none)
    (herr : embedE text = Except.error e) :
    process_query cats p d embedE hashF cache now text =
      (ERROR_MESSAGE, cache, ⟨false, true, false, false, false⟩) := by
  simp [process_query, classifyE, hmiss, herr]

/-- C3 witness: the amended behaviour on a concrete failing embedding. -/
theorem c3_classification_error_caught_witness :
    process_query catsEx promptsEx disclaimersEx embedFail hashEx [] 0 queryEx =
      (ERROR_MESSAGE, [], ⟨false, true, false, false, false⟩) :=
  c3_classification_error_caught catsEx promptsEx disclaimersEx embedFail hashEx
    [] 0 queryEx ("model failure") rfl rfl

/-- The nutrition category configuration of the concrete catalog. -/
def nutritionCfg : CategoryConfig :=
  { keywords := ["diet", "nutrition"],
    threshold := mkRat 3 10,
    requires_disclaimer := true,
    professional_referral := ["registered dietitian"] }

/-- C4: a category is matched by the classifier exactly when the cosine
similarity of the query with its representative vector strictly exceeds
its threshold (ties excluded), and a matched entry carries that
similarity as confidence together with the category disclaimer flag and
referrals. -/
theorem c4_classify_strict_threshold (cats : List (String × CategoryConfig))
    (sim : String → String → ℚ) (text name : String) (cfg : CategoryConfig)
    (hnd : (cats.map Prod.fst).Nodup) (hmem : (name, cfg) ∈ cats) :
    ((∃ ts : TopicScore, (name, ts) ∈ classify_health_topic cats sim text) ↔
        sim text name > cfg.threshold) ∧
    ∀ ts : TopicScore, (name, ts) ∈ classify_health_topic cats sim text →
      ts.confidence = sim text name ∧
      ts.requires_disclaimer = cfg.requires_disclaimer ∧
      ts.referrals = cfg.professional_referral := by
  have hkey : ∀ ts : TopicScore, (name, ts) ∈ classify_health_topic cats sim text →
      sim text name > cfg.threshold ∧
      ts = ⟨sim text name, cfg.requires_disclaimer, cfg.professional_referral⟩ := by
    intro ts hts
    obtain ⟨⟨a1, a2⟩, ha, hfa⟩ := List.mem_filterMap.mp hts
    by_cases hgt : sim text a1 > a2.threshold
    · rw [if_pos hgt] at hfa
      simp only [Option.some.injEq, Prod.mk.injEq] at hfa
      obtain ⟨hname, hts2⟩ := hfa
      subst hname
      have ha2 : a2 = cfg := nodup_key_eq hnd ha hmem
      subst ha2
      exact ⟨hgt, hts2.symm⟩
    · rw [if_neg hgt] at hfa
      exact absurd hfa (by simp)
  constructor
  · constructor
    · rintro ⟨ts, hts⟩
      exact (hkey ts hts).1
    · intro hgt
      refine ⟨⟨sim text name, cfg.requires_disclaimer, cfg.professional_referral⟩, ?_⟩
      apply List.mem_filterMap.mpr
      exact ⟨(name, cfg), hmem, by simp [hgt]⟩
  · intro ts hts
    rw [(hkey ts hts).2]
    exact ⟨rfl, rfl, rfl⟩

/-- C4 witness: the nutrition category at similarity 0.55 against
threshold 0.3. -/
theorem c4_classify_strict_threshold_witness :
    ((∃ ts : TopicScore, ("nutrition", ts) ∈ classify_health_topic catsEx simEx queryEx) ↔
        simEx queryEx ("nutrition") > nutritionCfg.threshold) ∧
    ∀ ts : TopicScore, ("nutrition", ts) ∈ classify_health_topic catsEx simEx queryEx →
      ts.confidence = simEx queryEx ("nutrition") ∧
      ts.requires_disclaimer = nutritionCfg.requires_disclaimer ∧
      ts.referrals = nutritionCfg.professional_referral :=
  c4_classify_strict_threshold catsEx simEx queryEx ("nutrition") nutritionCfg
    (by decide) (by decide)

/-- C5: when some matched topic requires a disclaimer and the response
contains (case-insensitively) neither "consult" nor "not medical advice",
the validator rejects the response and reports the disclaimer issue. -/
theorem c5_missing_disclaimer_invalid (response : String)
    (topics : List (String × TopicScore))
    (hreq : topics.any (fun t => t.2.requires_disclaimer) = true)
    (hc : strContains (strToLower response) ("consult") = false)
    (hn : strContains (strToLower response) ("not medical advice") = false) :
    (validate_response response topics).1 = false ∧
    "Missing healthcare consultation recommendation" ∈
      validate_issues response topics := by
  have hm : "Missing healthcare consultation recommendation" ∈
      validate_issues response topics := by
    simp [validate_issues, hreq, hc, hn]
  exact ⟨validate_response_false_of_issue (List.ne_nil_of_mem hm), hm⟩

/-- C5 witness: a short response with no disclaimer language against a
disclaimer-requiring topic. -/
theorem c5_missing_disclaimer_invalid_witness :
    (validate_response ("Eat more vegetables.")
        [("nutrition", ⟨mkRat 55 100, true, []⟩)]).1 = false ∧
    "Missing healthcare consultation recommendation" ∈
      validate_issues ("Eat more vegetables.")
        [("nutrition", ⟨mkRat 55 100, true, []⟩)] :=
  c5_missing_disclaimer_invalid ("Eat more vegetables.")
    [("nutrition", ⟨mkRat 55 100, true, []⟩)] (by decide) (by decide) (by decide)

/-- C6: the validator verdict is true exactly when its issue list is
empty, and any response of fewer than 20 words is rejected regardless of
its disclaimer content. -/
theorem c6_valid_iff_no_issues (response : String)
    (topics : List (String × TopicScore)) :
    ((validate_response response topics).1 = true ↔
        validate_issues response topics = []) ∧
    ((pyWords response).length < 20 →
      (validate_response response topics).1 = false) := by
  refine ⟨validate_response_true_iff response topics, ?_⟩
  intro h
  have hm : "Response too short - may lack sufficient detail" ∈
      validate_issues response topics := by
    simp [validate_issues, h]
  exact validate_response_false_of_issue (List.ne_nil_of_mem hm)

/-- C6 witness: a two-word response is rejected even though it is paired
with no disclaimer-requiring topic. -/
theorem c6_valid_iff_no_issues_witness :
    (validate_response ("hello there") []).1 = false :=
  (c6_valid_iff_no_issues ("hello there") []).2 (by decide)

/-- C7: on a cache miss whose classification is the empty topic set,
`process_query` returns the fixed redirect message and neither the
prompt composer nor the validator runs (the source contains no generator
call at all); the cache is left unchanged. -/
theorem c7_redirect_on_empty_classification (cats : List (String × CategoryConfig))
    (p : PromptTemplates) (d : DisclaimerTemplates)
    (embedE : String → Except String (String → ℚ)) (hashF : String → Int)
    (cache : List CacheEntry) (now : Nat) (text : String)
    (hmiss : cache_get cache now (hashF text) = none)
    (hempty : classifyE cats embedE text = Except.ok []) :
    process_query cats p d embedE hashF cache now text =
      (REDIRECT_MESSAGE, cache, ⟨false, true, false, false, false⟩) := by
  simp [process_query, hmiss, hempty]

/-- C7 witness: a query whose similarity 0.1 stays below the nutrition
threshold 0.3. -/
theorem c7_redirect_on_empty_classification_witness :
    process_query catsEx promptsEx disclaimersEx (embedOk simLow) hashEx [] 0 queryEx =
      (REDIRECT_MESSAGE, [], ⟨false, true, false, false, false⟩) :=
  c7_redirect_on_empty_classification catsEx promptsEx disclaimersEx (embedOk simLow)
    hashEx [] 0 queryEx rfl rfl

/-- C8: for a non-empty matched set the composed prompt starts with the
base template, the fragment list always contains the general educational
disclaimer, and it contains the medical-emergency safety fragment exactly
when some matched topic requires a disclaimer (assuming that fragment is
not literally one of the other configured fragments). -/
theorem c8_prompt_composition (p : PromptTemplates) (d : DisclaimerTemplates)
    (topics : List (String × TopicScore))
    (hne : topics ≠ [])
    (hem : p.medical_emergency ∉
      [p.base_prompt] ++ topics.filterMap (fun t => p.category_prompts.lookup t.1)
        ++ get_relevant_disclaimers d topics) :
    (∃ rest, get_dynamic_prompt p d topics = p.base_prompt ++ rest) ∧
    d.educational ∈ get_dynamic_prompt_parts p d topics ∧
    (p.medical_emergency ∈ get_dynamic_prompt_parts p d topics ↔
      topics.any (fun t => t.2.requires_disclaimer) = true) := by
  refine ⟨?_, ?_, ?_⟩
  · have hsh : get_dynamic_prompt_parts p d topics =
        p.base_prompt :: (topics.filterMap (fun t => p.category_prompts.lookup t.1)
          ++ (get_relevant_disclaimers d topics
            ++ (if topics.any (fun t => t.2.requires_disclaimer) then
                  [p.medical_emergency] else []))) := by
      simp [get_dynamic_prompt_parts]
    rw [get_dynamic_prompt, hsh]
    exact joinStr_cons ("\n\n") p.base_prompt _
  · simp [get_dynamic_prompt_parts, get_relevant_disclaimers]
  · constructor
    · intro hm
      cases hcond : topics.any (fun t => t.2.requires_disclaimer) with
      | true => rfl
      | false =>
        exfalso
        apply hem
        simpa [get_dynamic_prompt_parts, hcond] using hm
    · intro hcond
      simp [get_dynamic_prompt_parts, hcond]

/-- C8 witness: the concrete nutrition configuration, where the matched
set is non-empty and requires a disclaimer. -/
theorem c8_prompt_composition_witness :
    (∃ rest, get_dynamic_prompt promptsEx disclaimersEx
        (classify_health_topic catsEx simEx queryEx) =
      promptsEx.base_prompt ++ rest) ∧
    disclaimersEx.educational ∈ get_dynamic_prompt_parts promptsEx disclaimersEx
      (classify_health_topic catsEx simEx queryEx) ∧
    (promptsEx.medical_emergency ∈ get_dynamic_prompt_parts promptsEx disclaimersEx
        (classify_health_topic catsEx simEx queryEx) ↔
      (classify_health_topic catsEx simEx queryEx).any
        (fun t => t.2.requires_disclaimer) = true) :=
  c8_prompt_composition promptsEx disclaimersEx
    (classify_health_topic catsEx simEx queryEx) (by decide) (by decide)

/-- C9: after a pipeline run stores the response, a second call with the
same query before TTL expiry answers from the cache with exactly the
stored response and runs no pipeline stage; once the TTL has elapsed the
entry is treated as absent and the full pipeline runs again, producing
the same response text. -/
theorem c9_cache_roundtrip (cats : List (String × CategoryConfig))
    (p : PromptTemplates) (d : DisclaimerTemplates) (hashF : String → Int)
    (cache : List CacheEntry) (t0 t1 : Nat) (text : String)
    (sim : String → String → ℚ)
    (hmiss : cache_get cache t0 (hashF text) = none)
    (hne : classify_health_topic cats sim text ≠ []) :
    (t1 < t0 + CACHE_TTL →
      process_query cats p d (embedOk sim) hashF
          (process_query cats p d (embedOk sim) hashF cache t0 text).2.1 t1 text =
        ((process_query cats p d (embedOk sim) hashF cache t0 text).1,
          (process_query cats p d (embedOk sim) hashF cache t0 text).2.1,
          ⟨true, false, false, false, false⟩)) ∧
    (t0 + CACHE_TTL ≤ t1 →
      (process_query cats p d (embedOk sim) hashF
          (process_query cats p d (embedOk sim) hashF cache t0 text).2.1 t1 text).2.2 =
        ⟨false, true, true, true, true⟩ ∧
      (process_query cats p d (embedOk sim) hashF
          (process_query cats p d (embedOk sim) hashF cache t0 text).2.1 t1 text).1 =
        (process_query cats p d (embedOk sim) hashF cache t0 text).1) := by
  have h1 := process_query_matched cats p d (embedOk sim) hashF cache t0 text
    (classify_health_topic cats sim text) hmiss (classifyE_embedOk cats sim text) hne
  constructor
  · intro hlt
    rw [h1]
    dsimp only
    exact process_query_hit cats p d (embedOk sim) hashF _ t1 text PLACEHOLDER_RESPONSE
      (cache_get_put_live cache t0 (hashF text) PLACEHOLDER_RESPONSE t1 hlt)
  · intro hge
    have hmiss2 : cache_get (cache_put cache t0 (hashF text) PLACEHOLDER_RESPONSE)
        t1 (hashF text) = none :=
      cache_get_put_expired cache t0 (hashF text) PLACEHOLDER_RESPONSE t1
        (Nat.not_lt.mpr hge)
    have h2 := process_query_matched cats p d (embedOk sim) hashF
      (cache_put cache t0 (hashF text) PLACEHOLDER_RESPONSE) t1 text
      (classify_health_topic cats sim text) hmiss2 (classifyE_embedOk cats sim text) hne
    rw [h1]
    dsimp only
    rw [h2]
    exact ⟨rfl, rfl⟩

/-- C9 witness: first call at time 0, second call at time 1 within the
24-hour TTL, on the concrete nutrition query. -/
theorem c9_cache_roundtrip_witness :
    (1 < 0 + CACHE_TTL →
      process_query catsEx promptsEx disclaimersEx (embedOk simEx) hashEx
          (process_query catsEx promptsEx disclaimersEx (embedOk simEx) hashEx [] 0 queryEx).2.1 1 queryEx =
        ((process_query catsEx promptsEx disclaimersEx (embedOk simEx) hashEx [] 0 queryEx).1,
          (process_query catsEx promptsEx disclaimersEx (embedOk simEx) hashEx [] 0 queryEx).2.1,
          ⟨true, false, false, false, false⟩)) ∧
    (0 + CACHE_TTL ≤ 1 →
      (process_query catsEx promptsEx disclaimersEx (embedOk simEx) hashEx
          (process_query catsEx promptsEx disclaimersEx (embedOk simEx) hashEx [] 0 queryEx).2.1 1 queryEx).2.2 =
        ⟨false, true, true, true, true⟩ ∧
      (process_query catsEx promptsEx disclaimersEx (embedOk simEx) hashEx
          (process_query catsEx promptsEx disclaimersEx (embedOk simEx) hashEx [] 0 queryEx).2.1 1 queryEx).1 =
        (process_query catsEx promptsEx disclaimersEx (embedOk simEx) hashEx [] 0 queryEx).1) :=
  c9_cache_roundtrip catsEx promptsEx disclaimersEx hashEx [] 0 1 queryEx simEx
    rfl (by decide)

/-- C10: on a cache miss with at least one matched topic, `process_query`
always returns the fixed placeholder string, independent of the query,
the composed prompt and the validation verdict; no generator exists in
the source to be invoked. -/
theorem c10_placeholder_response (cats : List (String × CategoryConfig))
    (p : PromptTemplates) (d : DisclaimerTemplates)
    (embedE : String → Except String (String → ℚ)) (hashF : String → Int)
    (cache : List CacheEntry) (now : Nat) (text : String)
    (topics : List (String × TopicScore))
    (hmiss : cache_get cache now (hashF text) = none)
    (hok : classifyE cats embedE text = Except.ok topics)
    (hne : topics ≠ []) :
    (process_query cats p d embedE hashF cache now text).1 = PLACEHOLDER_RESPONSE := by
  rw [process_query_matched cats p d embedE hashF cache now text topics hmiss hok hne]

/-- C10 witness: the concrete nutrition query with a matched topic. -/
theorem c10_placeholder_response_witness :
    (process_query catsEx promptsEx disclaimersEx (embedOk simEx) hashEx [] 0 queryEx).1 =
      PLACEHOLDER_RESPONSE :=
  c10_placeholder_response catsEx promptsEx disclaimersEx (embedOk simEx) hashEx
    [] 0 queryEx (classify_health_topic catsEx simEx queryEx) rfl
    (classifyE_embedOk catsEx simEx queryEx) (by decide)

end HealthAssistant
